import Mathlib

/-!
Shallow embedding of the voice-controlled assistant's session core
(the React `App` component plus its types): session lifecycle
(`startSession`, `stopSession`), the inbound message handler
(`handleMessage`: playback scheduling, transcript aggregation, exit-phrase
detection, turn completion, interruption), source-ended bookkeeping, and
the wake recognizer restart.  Clock readings and buffer durations are
modelled as integer ticks (the scheduling logic uses only `max`, `+` and
`≤`, so nothing depends on the clock's granularity); the `setTimeout`
calls are modelled as a list of pending fire times that a separate event
function consumes.
-/

namespace VoiceAssistant

/-- Connection lifecycle status, from `types.ts` (`ConnectionStatus`). -/
inductive ConnectionStatus
  | DISCONNECTED
  | CONNECTING
  | CONNECTED
  | ERROR
deriving DecidableEq, Repr

/-- Sender of a finalized transcription record, from `types.ts`. -/
inductive Sender
  | user
  | model
deriving DecidableEq, Repr

/-- Finalized transcript record, from `types.ts` (`Transcription`). -/
structure Transcription where
  text : String
  sender : Sender
  timestamp : Nat
deriving DecidableEq, Repr

/-- Visual (face) status, the `currentStatus` React state. -/
inductive VisualStatus
  | idle
  | listening
  | speaking
  | waking
deriving DecidableEq, Repr

/-- The mutable state of the `App` component: React state plus refs.
`sources` models `sourcesRef` (ids of scheduled-but-unfinished buffer
sources, in insertion order), `pendingStops` models the un-cancelled
`setTimeout(() => stopSession(), 3000)` fire times, `pendingRecRestarts`
the un-cancelled `setTimeout(() => recognition.start(), 1000)` fire times
from the recognizer's error callback, `openAttempts` counts
`ai.live.connect` calls, and `schedule` is a history variable logging each
`source.start(t)` call as a `(start, duration)` pair. -/
structure AppState where
  status : ConnectionStatus
  isHandsFree : Bool
  transcriptions : List Transcription
  currentStatus : VisualStatus
  sessionOpen : Bool
  inputCtxOpen : Bool
  outputCtxOpen : Bool
  nextStartTime : ℤ
  sources : List Nat
  nextSourceId : Nat
  transcriptInput : String
  transcriptOutput : String
  recognitionRunning : Bool
  pendingStops : List ℤ
  pendingRecRestarts : List ℤ
  openAttempts : Nat
  schedule : List (ℤ × ℤ)
deriving DecidableEq, Repr

/-- Inbound message union (`LiveServerMessage` as the handler reads it):
an optional audio chunk (kept as its decoded duration), optional
input/output transcription deltas, and the `turnComplete` / `interrupted`
flags.  Any subset of fields may be present. -/
structure LiveServerMessage where
  audioDuration : Option ℤ
  inputTranscription : Option String
  outputTranscription : Option String
  turnComplete : Bool
  interrupted : Bool
deriving DecidableEq, Repr

/-- Ambient clock readings at the moment an event is handled:
`outNow` is `outputAudioCtx.currentTime`, `now` the wall clock used for
`setTimeout` bookkeeping, `ts` is `Date.now()`. -/
structure Env where
  outNow : ℤ
  now : ℤ
  ts : Nat
deriving DecidableEq, Repr

/-- Boolean list-prefix test (`p` starts the list). -/
def startsWithChars : List Char → List Char → Bool
  | [], _ => true
  | _ :: _, [] => false
  | p :: ps, c :: cs => (p == c) && startsWithChars ps cs

/-- Boolean contiguous-sublist test: `pat` occurs somewhere in the list. -/
def infixOfChars (pat : List Char) : List Char → Bool
  | [] => startsWithChars pat []
  | c :: cs => startsWithChars pat (c :: cs) || infixOfChars pat cs

/-- JavaScript `s.includes(pat)`: substring containment. -/
def strIncludes (s pat : String) : Bool :=
  infixOfChars pat.toList s.toList

/-- JavaScript `s.toLowerCase()` on the ASCII range, as a map over the
string's characters. -/
def strToLower (s : String) : String :=
  String.mk (s.data.map Char.toLower)

/-- The exit-phrase test from `handleMessage`:
`lower.includes('goodbye') || lower.includes('sleep') || lower.includes('stop session')`. -/
def isExitCommand (lower : String) : Bool :=
  strIncludes lower "goodbye" || strIncludes lower "sleep" || strIncludes lower "stop session"

/-- Audio branch of `handleMessage` (`if (audioData && outputAudioCtxRef.current)`):
set the face to speaking, clamp `nextStartTime` up to the output clock,
start a new source at that time, advance `nextStartTime` by the buffer
duration, and record the source handle. -/
def handleAudio (env : Env) (s : AppState) : Option ℤ → AppState
  | none => s
  | some dur =>
    if s.outputCtxOpen then
      let start := max s.nextStartTime env.outNow
      { s with currentStatus := VisualStatus.speaking
               nextStartTime := start + dur
               sources := s.sources ++ [s.nextSourceId]
               nextSourceId := s.nextSourceId + 1
               schedule := s.schedule ++ [(start, dur)] }
    else s

/-- Input-transcription branch of `handleMessage`: append the delta to the
input draft, lower-case the delta (note: the delta `text` only, not the
accumulated draft), and on an exit-phrase match schedule
`setTimeout(() => stopSession(), 3000)`. -/
def handleInput (env : Env) (s : AppState) : Option String → AppState
  | none => s
  | some t =>
    let s := { s with transcriptInput := s.transcriptInput ++ t }
    let lower := strToLower t
    if isExitCommand lower then
      { s with pendingStops := s.pendingStops ++ [env.now + 3000] }
    else s

/-- Output-transcription branch of `handleMessage`: append to the output draft. -/
def handleOutput (s : AppState) : Option String → AppState
  | none => s
  | some t => { s with transcriptOutput := s.transcriptOutput ++ t }

/-- Turn-complete branch of `handleMessage`: `if (input || output)` append
the user and model records (JS string truthiness: at least one field
non-empty), then reset the draft unconditionally. -/
def handleTurnComplete (env : Env) (s : AppState) : Bool → AppState
  | false => s
  | true =>
    let input := s.transcriptInput
    let output := s.transcriptOutput
    let s :=
      if input ≠ "" ∨ output ≠ "" then
        { s with transcriptions := s.transcriptions ++
            [⟨input, Sender.user, env.ts⟩, ⟨output, Sender.model, env.ts⟩] }
      else s
    { s with transcriptInput := "", transcriptOutput := "" }

/-- Interrupted branch of `handleMessage`: stop every source, clear the
set, reset `nextStartTime` to 0, face back to listening. -/
def handleInterrupted (s : AppState) : Bool → AppState
  | false => s
  | true =>
    { s with sources := []
             nextStartTime := 0
             currentStatus := VisualStatus.listening }

/-- The `onmessage` handler: the five branches run in source order on
whichever fields are present. -/
def handleMessage (env : Env) (s : AppState) (msg : LiveServerMessage) : AppState :=
  let s := handleAudio env s msg.audioDuration
  let s := handleInput env s msg.inputTranscription
  let s := handleOutput s msg.outputTranscription
  let s := handleTurnComplete env s msg.turnComplete
  handleInterrupted s msg.interrupted

/-- The `source.onended` callback: remove the handle from the set and,
when the set became empty, set the face to listening — with no check of
`status` or of the current face. -/
def onSourceEnded (s : AppState) (id : Nat) : AppState :=
  let sources := s.sources.erase id
  if sources.isEmpty then
    { s with sources := sources, currentStatus := VisualStatus.listening }
  else
    { s with sources := sources }

/-- `initLocalRecognition`: stop any previous recognizer and start a fresh
one; observably the recognizer is (still) running afterwards. -/
def initLocalRecognition (s : AppState) : AppState :=
  { s with recognitionRunning := true }

/-- `stopSession`: close the session handle if held, drop the promise ref,
close both audio contexts (optional chaining: absent handles are skipped),
set status `DISCONNECTED`, face `idle`, and restart the wake recognizer
when hands-free is on. -/
def stopSession (s : AppState) : AppState :=
  let s := { s with sessionOpen := false
                    inputCtxOpen := false
                    outputCtxOpen := false
                    status := ConnectionStatus.DISCONNECTED
                    currentStatus := VisualStatus.idle }
  if s.isHandsFree then initLocalRecognition s else s

/-- `startSession`: guarded no-op when already `CONNECTING`/`CONNECTED`;
otherwise move to `CONNECTING`/waking, create both audio contexts, then
acquire the microphone.  `micOk` abstracts whether `getUserMedia`
succeeds: on success one `ai.live.connect` attempt is made and the session
handle is held; on failure the catch block sets `ERROR` and face `idle`
(and nothing else — no teardown, no transition to `DISCONNECTED`). -/
def startSession (micOk : Bool) (s : AppState) : AppState :=
  if s.status = ConnectionStatus.CONNECTING ∨ s.status = ConnectionStatus.CONNECTED then s
  else
    let s := { s with status := ConnectionStatus.CONNECTING
                      currentStatus := VisualStatus.waking
                      inputCtxOpen := true
                      outputCtxOpen := true }
    if micOk then
      { s with openAttempts := s.openAttempts + 1, sessionOpen := true }
    else
      { s with status := ConnectionStatus.ERROR, currentStatus := VisualStatus.idle }

/-- The `onopen` callback: status `CONNECTED`, face listening, stop the
local wake recognizer, wire the capture pipeline. -/
def onOpen (s : AppState) : AppState :=
  { s with status := ConnectionStatus.CONNECTED
           currentStatus := VisualStatus.listening
           recognitionRunning := false }

/-- First half of the channel `onerror` callback: `setStatus(ERROR)`. -/
def onChannelErrorPre (s : AppState) : AppState :=
  { s with status := ConnectionStatus.ERROR }

/-- The channel `onerror` callback: `setStatus(ERROR)` then `stopSession()`. -/
def onChannelError (s : AppState) : AppState :=
  stopSession (onChannelErrorPre s)

/-- Firing the earliest pending `setTimeout(() => stopSession(), 3000)`:
the callback simply invokes `stopSession` on whatever state is current
when the timer elapses (nothing ever clears these timers). -/
def fireDelayedStop (s : AppState) : AppState :=
  match s.pendingStops with
  | [] => s
  | _ :: rest => stopSession { s with pendingStops := rest }

/-- The recognizer's `onerror` callback: `if (isHandsFree)
setTimeout(() => recognition.start(), 1000)`.  The flag tested is the
`isHandsFree` value captured by the `initLocalRecognition` closure when
the recognizer was created; the timer handle is discarded. -/
def onRecognitionError (env : Env) (capturedHandsFree : Bool) (s : AppState) : AppState :=
  if capturedHandsFree then
    { s with pendingRecRestarts := s.pendingRecRestarts ++ [env.now + 1000] }
  else s

/-- Firing the earliest pending recognizer-restart timer: the callback
runs `recognition.start()` on the captured recognizer instance
unconditionally — no check of the session status or of the current
hands-free setting happens at fire time. -/
def fireRecRestart (s : AppState) : AppState :=
  match s.pendingRecRestarts with
  | [] => s
  | _ :: rest => { s with pendingRecRestarts := rest, recognitionRunning := true }

/-- Message carrying only an audio chunk of the given decoded duration. -/
def audioMsg (dur : ℤ) : LiveServerMessage :=
  ⟨some dur, none, none, false, false⟩

/-- Message carrying only an input-transcription delta. -/
def inputMsg (t : String) : LiveServerMessage :=
  ⟨none, some t, none, false, false⟩

/-- Message carrying only the turn-complete flag. -/
def turnCompleteMsg : LiveServerMessage :=
  ⟨none, none, none, true, false⟩

/-- Message carrying only the interrupted flag. -/
def interruptedMsg : LiveServerMessage :=
  ⟨none, none, none, false, true⟩

/-- Feed a list of audio-chunk messages through `handleMessage`, each with
its own output-clock reading (`(clock value, chunk duration)` pairs). -/
def runAudioChunks (s : AppState) : List (ℤ × ℤ) → AppState
  | [] => s
  | (clk, dur) :: rest => runAudioChunks (handleMessage ⟨clk, 0, 0⟩ s (audioMsg dur)) rest

/-- The component's initial state: disconnected, idle, no resources held. -/
def initialAppState : AppState :=
  { status := ConnectionStatus.DISCONNECTED
    isHandsFree := false
    transcriptions := []
    currentStatus := VisualStatus.idle
    sessionOpen := false
    inputCtxOpen := false
    outputCtxOpen := false
    nextStartTime := 0
    sources := []
    nextSourceId := 0
    transcriptInput := ""
    transcriptOutput := ""
    recognitionRunning := false
    pendingStops := []
    pendingRecRestarts := []
    openAttempts := 0
    schedule := [] }

/-- A freshly connected session: `startSession` succeeded and `onopen` fired. -/
def connectedState : AppState :=
  onOpen (startSession true initialAppState)

/-- Two consecutive schedule entries neither overlap nor go backwards:
the later segment starts no earlier than the earlier one's end, and no
earlier than its start. -/
def Rsched (a b : ℤ × ℤ) : Prop :=
  a.1 + a.2 ≤ b.1 ∧ a.1 ≤ b.1

/-- Scheduler invariant: the logged schedule is a chain under `Rsched`,
and `nextStartTime` is at or past the last logged segment's end. -/
def schedInv (s : AppState) : Prop :=
  List.Chain' Rsched s.schedule ∧
  ∀ l, s.schedule.getLast? = some l → l.1 + l.2 ≤ s.nextStartTime ∧ l.1 ≤ s.nextStartTime

/-- Characterization of `handleMessage` on a pure audio-chunk message when
the output context is open. -/
lemma handleMessage_audioMsg (env : Env) (s : AppState) (dur : ℤ)
    (hopen : s.outputCtxOpen = true) :
    handleMessage env s (audioMsg dur) =
      { s with currentStatus := VisualStatus.speaking
               nextStartTime := max s.nextStartTime env.outNow + dur
               sources := s.sources ++ [s.nextSourceId]
               nextSourceId := s.nextSourceId + 1
               schedule := s.schedule ++ [(max s.nextStartTime env.outNow, dur)] } := by
  simp [handleMessage, audioMsg, handleAudio, handleInput, handleOutput,
    handleTurnComplete, handleInterrupted, hopen]

/-- One audio chunk of nonnegative duration preserves the scheduler invariant. -/
lemma schedInv_handleMessage (env : Env) (s : AppState) (dur : ℤ)
    (hopen : s.outputCtxOpen = true) (hdur : 0 ≤ dur) (hinv : schedInv s) :
    schedInv (handleMessage env s (audioMsg dur)) := by
  obtain ⟨hchain, hlast⟩ := hinv
  rw [handleMessage_audioMsg env s dur hopen]
  constructor
  · rw [List.chain'_append]
    refine ⟨hchain, List.chain'_singleton _, ?_⟩
    intro x hx y hy
    simp only [List.head?_cons, Option.mem_def, Option.some.injEq] at hy
    subst hy
    obtain ⟨h1, h2⟩ := hlast x hx
    exact ⟨le_trans h1 (le_max_left _ _), le_trans h2 (le_max_left _ _)⟩
  · intro l hl
    rw [List.getLast?_concat] at hl
    cases hl
    exact ⟨le_refl _, le_add_of_nonneg_right hdur⟩

/-- Processing any list of audio chunks with nonnegative durations
preserves the scheduler invariant (and keeps the output context open). -/
lemma schedInv_runAudioChunks (chunks : List (ℤ × ℤ)) (s : AppState)
    (hopen : s.outputCtxOpen = true) (hinv : schedInv s)
    (hdur : ∀ c ∈ chunks, 0 ≤ c.2) :
    schedInv (runAudioChunks s chunks) := by
  induction chunks generalizing s with
  | nil => simpa [runAudioChunks] using hinv
  | cons c rest ih =>
    obtain ⟨clk, dur⟩ := c
    have hopen' : (handleMessage ⟨clk, 0, 0⟩ s (audioMsg dur)).outputCtxOpen = true := by
      rw [handleMessage_audioMsg _ _ _ hopen]
      exact hopen
    have hd : (0 : ℤ) ≤ dur := hdur (clk, dur) (List.mem_cons_self _ _)
    exact ih _ hopen'
      (schedInv_handleMessage _ _ _ hopen hd hinv)
      (fun c hc => hdur c (List.mem_cons_of_mem _ hc))

/-- C1: over any sequence of audio-chunk messages handled by
`handleMessage` starting from an empty schedule, the logged start times
are non-decreasing and consecutive segments never overlap
(`start_i + duration_i ≤ start_{i+1}`); moreover each single enqueue
starts the segment at `max (nextPlaybackTime, output clock now)` and then
advances `nextPlaybackTime` by the segment's duration. -/
theorem playback_starts_monotone_no_overlap (s : AppState) (chunks : List (ℤ × ℤ))
    (hopen : s.outputCtxOpen = true) (hnil : s.schedule = [])
    (hdur : ∀ c ∈ chunks, 0 ≤ c.2) :
    List.Chain' (fun a b : ℤ × ℤ => a.1 + a.2 ≤ b.1) (runAudioChunks s chunks).schedule ∧
    List.Chain' (fun a b : ℤ × ℤ => a.1 ≤ b.1) (runAudioChunks s chunks).schedule ∧
    ∀ (env : Env) (s1 : AppState) (dur : ℤ), s1.outputCtxOpen = true →
      (handleMessage env s1 (audioMsg dur)).schedule
        = s1.schedule ++ [(max s1.nextStartTime env.outNow, dur)] ∧
      (handleMessage env s1 (audioMsg dur)).nextStartTime
        = max s1.nextStartTime env.outNow + dur := by
  have hinv : schedInv s := by
    constructor
    · rw [hnil]; exact List.chain'_nil
    · intro l hl
      rw [hnil] at hl
      simp at hl
  have h := schedInv_runAudioChunks chunks s hopen hinv hdur
  refine ⟨h.1.imp fun _ _ hab => hab.1, h.1.imp fun _ _ hab => hab.2, ?_⟩
  intro env s1 dur h1
  rw [handleMessage_audioMsg env s1 dur h1]
  exact ⟨rfl, rfl⟩

/-- Witness for C1 at a concrete connected state and two chunks. -/
theorem playback_starts_monotone_no_overlap_witness :
    connectedState.outputCtxOpen = true ∧ connectedState.schedule = [] ∧
    (List.Chain' (fun a b : ℤ × ℤ => a.1 + a.2 ≤ b.1)
        (runAudioChunks connectedState [(0, 2), (1, 3)]).schedule ∧
      List.Chain' (fun a b : ℤ × ℤ => a.1 ≤ b.1)
        (runAudioChunks connectedState [(0, 2), (1, 3)]).schedule ∧
      ∀ (env : Env) (s1 : AppState) (dur : ℤ), s1.outputCtxOpen = true →
        (handleMessage env s1 (audioMsg dur)).schedule
          = s1.schedule ++ [(max s1.nextStartTime env.outNow, dur)] ∧
        (handleMessage env s1 (audioMsg dur)).nextStartTime
          = max s1.nextStartTime env.outNow + dur) :=
  ⟨by decide, by decide,
    playback_starts_monotone_no_overlap connectedState [(0, 2), (1, 3)]
      (by decide) (by decide) (by decide)⟩

/-- C2: handling an interrupted signal clears the playing set and resets
`nextPlaybackTime` to 0, so the next enqueued segment is scheduled exactly
at the output clock's current reading, not at the pre-interrupt
`nextPlaybackTime`. -/
theorem interrupt_then_enqueue_schedules_now (env1 env2 : Env) (s : AppState) (dur : ℤ)
    (hopen : s.outputCtxOpen = true) (hnow : 0 ≤ env2.outNow) :
    (handleMessage env1 s interruptedMsg).nextStartTime = 0 ∧
    (handleMessage env1 s interruptedMsg).sources = [] ∧
    (handleMessage env2 (handleMessage env1 s interruptedMsg) (audioMsg dur)).schedule
      = (handleMessage env1 s interruptedMsg).schedule ++ [(env2.outNow, dur)] := by
  refine ⟨?_, ?_, ?_⟩ <;>
    simp [handleMessage, interruptedMsg, audioMsg, handleAudio, handleInput,
      handleOutput, handleTurnComplete, handleInterrupted, hopen, max_eq_right hnow]

/-- Witness for C2: after a chunk has pushed `nextPlaybackTime` to 7, an
interrupt followed by an enqueue at clock reading 5 schedules at 5. -/
theorem interrupt_then_enqueue_schedules_now_witness :
    (runAudioChunks connectedState [(0, 7)]).outputCtxOpen = true ∧ (0 : ℤ) ≤ 5 ∧
    ((handleMessage ⟨0, 0, 0⟩ (runAudioChunks connectedState [(0, 7)]) interruptedMsg).nextStartTime = 0 ∧
      (handleMessage ⟨0, 0, 0⟩ (runAudioChunks connectedState [(0, 7)]) interruptedMsg).sources = [] ∧
      (handleMessage ⟨5, 0, 0⟩
          (handleMessage ⟨0, 0, 0⟩ (runAudioChunks connectedState [(0, 7)]) interruptedMsg)
          (audioMsg 2)).schedule
        = (handleMessage ⟨0, 0, 0⟩ (runAudioChunks connectedState [(0, 7)]) interruptedMsg).schedule
            ++ [(5, 2)]) :=
  ⟨by decide, by decide,
    interrupt_then_enqueue_schedules_now ⟨0, 0, 0⟩ ⟨5, 0, 0⟩
      (runAudioChunks connectedState [(0, 7)]) 2 (by decide) (by decide)⟩

/-- C3 counterexample: a turn-complete signal arriving while both draft
fields are empty emits no transcription records at all (`if (input ||
output)` is false on two empty strings), contradicting the claim that two
empty records are emitted unconditionally. -/
theorem turn_complete_empty_draft_emits_no_records :
    connectedState.transcriptInput = "" ∧ connectedState.transcriptOutput = "" ∧
    (handleMessage ⟨0, 0, 0⟩ connectedState turnCompleteMsg).transcriptions = [] := by
  decide

/-- C3 (amended): on a turn-complete signal, exactly two records (user
with the accumulated input, then model with the accumulated output) are
appended when at least one accumulated field is non-empty; when both are
empty no record is appended; in every case the draft is reset to empty
strings. -/
theorem turn_complete_emits_pair_iff_nonempty (env : Env) (s : AppState) :
    (s.transcriptInput ≠ "" ∨ s.transcriptOutput ≠ "" →
      (handleMessage env s turnCompleteMsg).transcriptions =
        s.transcriptions ++ [⟨s.transcriptInput, Sender.user, env.ts⟩,
          ⟨s.transcriptOutput, Sender.model, env.ts⟩]) ∧
    (s.transcriptInput = "" ∧ s.transcriptOutput = "" →
      (handleMessage env s turnCompleteMsg).transcriptions = s.transcriptions) ∧
    (handleMessage env s turnCompleteMsg).transcriptInput = "" ∧
    (handleMessage env s turnCompleteMsg).transcriptOutput = "" := by
  by_cases h : s.transcriptInput ≠ "" ∨ s.transcriptOutput ≠ "" <;>
    simp_all [handleMessage, turnCompleteMsg, handleAudio, handleInput,
      handleOutput, handleTurnComplete, handleInterrupted]

/-- Witness for C3 (amended) at a draft with input "hi" and empty output. -/
theorem turn_complete_emits_pair_iff_nonempty_witness :
    (("hi" : String) ≠ "" ∨ ("" : String) ≠ "") ∧
    (handleMessage ⟨0, 0, 7⟩ { connectedState with transcriptInput := "hi" }
        turnCompleteMsg).transcriptions =
      [⟨"hi", Sender.user, 7⟩, ⟨"", Sender.model, 7⟩] :=
  ⟨Or.inl (by decide),
    ((turn_complete_emits_pair_iff_nonempty ⟨0, 0, 7⟩
        { connectedState with transcriptInput := "hi" }).1 (Or.inl (by decide))).trans
      (by decide)⟩

/-- C4 counterexample: the deltas "good" then "bye" leave the accumulated
input draft equal to "goodbye" — whose lower-casing contains the exit
phrase — yet no delayed stop is scheduled, because the code scans only
each newly arrived delta, not the accumulated draft. -/
theorem split_exit_phrase_not_detected :
    (handleMessage ⟨0, 1, 0⟩ (handleMessage ⟨0, 0, 0⟩ connectedState (inputMsg "good"))
        (inputMsg "bye")).pendingStops = [] ∧
    (handleMessage ⟨0, 1, 0⟩ (handleMessage ⟨0, 0, 0⟩ connectedState (inputMsg "good"))
        (inputMsg "bye")).transcriptInput = "goodbye" ∧
    isExitCommand (strToLower "goodbye") = true := by
  decide

/-- C4 (amended): on every input-transcript delta the handler appends the
delta to the accumulated draft but lower-cases and scans only the delta
itself for the substrings "goodbye", "sleep" and "stop session"; a stop is
scheduled exactly when the delta alone contains an exit phrase, so a
phrase split across two deltas is not detected. -/
theorem exit_scan_uses_delta_only (env : Env) (s : AppState) (t : String) :
    (handleMessage env s (inputMsg t)).transcriptInput = s.transcriptInput ++ t ∧
    (handleMessage env s (inputMsg t)).pendingStops =
      (if isExitCommand (strToLower t) then s.pendingStops ++ [env.now + 3000]
       else s.pendingStops) := by
  by_cases h : isExitCommand (strToLower t) = true <;>
    simp_all [handleMessage, inputMsg, handleAudio, handleInput, handleOutput,
      handleTurnComplete, handleInterrupted]

/-- C5 counterexample: two matching deltas within the same 3-second
window ("goodbye" at wall-clock 0, " goodbye" at wall-clock 1) schedule
two delayed stops, pending simultaneously — not one. -/
theorem repeated_match_schedules_second_stop :
    (handleMessage ⟨0, 1, 0⟩ (handleMessage ⟨0, 0, 0⟩ connectedState (inputMsg "goodbye"))
        (inputMsg " goodbye")).pendingStops = [3000, 3001] := by
  decide

/-- C5 (amended): every input delta containing an exit phrase appends one
more delayed stop, unconditionally on how many are already pending — there
is no single-pending-stop guard, so subsequent matches within the delay
window are not no-ops. -/
theorem every_match_appends_delayed_stop (env : Env) (s : AppState) (t : String)
    (h : isExitCommand (strToLower t) = true) :
    (handleMessage env s (inputMsg t)).pendingStops = s.pendingStops ++ [env.now + 3000] ∧
    (handleMessage env s (inputMsg t)).pendingStops.length = s.pendingStops.length + 1 := by
  simp [handleMessage, inputMsg, handleAudio, handleInput, handleOutput,
    handleTurnComplete, handleInterrupted, h]

/-- Witness for C5 (amended): with one stop already pending, a second
matching delta makes it two. -/
theorem every_match_appends_delayed_stop_witness :
    isExitCommand (strToLower "goodbye") = true ∧
    ((handleMessage ⟨0, 5, 0⟩ { connectedState with pendingStops := [3000] }
        (inputMsg "goodbye")).pendingStops = [3000] ++ [(5 : ℤ) + 3000] ∧
      (handleMessage ⟨0, 5, 0⟩ { connectedState with pendingStops := [3000] }
        (inputMsg "goodbye")).pendingStops.length = [(3000 : ℤ)].length + 1) :=
  ⟨by decide,
    every_match_appends_delayed_stop ⟨0, 5, 0⟩
      { connectedState with pendingStops := [3000] } "goodbye" (by decide)⟩

/-- C6: `startSession` is a no-op (no state change, hence no channel open
attempt) whenever status is `CONNECTING` or `CONNECTED`; from
`DISCONNECTED`, two successive calls make exactly one `ai.live.connect`
attempt — the first increments the attempt counter, the second changes
nothing. -/
theorem request_start_noop_when_busy (ok : Bool) (s : AppState) :
    ((s.status = ConnectionStatus.CONNECTING ∨ s.status = ConnectionStatus.CONNECTED) →
      startSession ok s = s) ∧
    (s.status = ConnectionStatus.DISCONNECTED →
      (startSession true s).openAttempts = s.openAttempts + 1 ∧
      startSession true (startSession true s) = startSession true s) := by
  constructor
  · intro h
    simp [startSession, h]
  · intro h
    have h1 : startSession true s =
        { s with status := ConnectionStatus.CONNECTING,
                 currentStatus := VisualStatus.waking,
                 inputCtxOpen := true, outputCtxOpen := true,
                 openAttempts := s.openAttempts + 1, sessionOpen := true } := by
      simp [startSession, h]
    rw [h1]
    exact ⟨rfl, by simp [startSession]⟩

/-- Witness for C6: the guard at a concrete `CONNECTING` state, and the
double call from the initial `DISCONNECTED` state. -/
theorem request_start_noop_when_busy_witness :
    ((startSession true initialAppState).status = ConnectionStatus.CONNECTING ∨
      (startSession true initialAppState).status = ConnectionStatus.CONNECTED) ∧
    startSession false (startSession true initialAppState) = startSession true initialAppState ∧
    initialAppState.status = ConnectionStatus.DISCONNECTED ∧
    ((startSession true initialAppState).openAttempts = initialAppState.openAttempts + 1 ∧
      startSession true (startSession true initialAppState) = startSession true initialAppState) :=
  ⟨Or.inl (by decide),
    (request_start_noop_when_busy false (startSession true initialAppState)).1
      (Or.inl (by decide)),
    by decide,
    (request_start_noop_when_busy true initialAppState).2 (by decide)⟩

/-- C7: `stopSession` is a total function on every state (closing absent
resources is modelled as the skipped optional-chaining calls, so nothing
throws), it is idempotent — a second call, in particular one made when
status is already `DISCONNECTED`, changes nothing — and it always leaves
status `DISCONNECTED`, face idle, and every resource released. -/
theorem stop_session_idempotent (s : AppState) :
    stopSession (stopSession s) = stopSession s ∧
    (stopSession s).status = ConnectionStatus.DISCONNECTED ∧
    (stopSession s).currentStatus = VisualStatus.idle ∧
    (stopSession s).sessionOpen = false ∧
    (stopSession s).inputCtxOpen = false ∧
    (stopSession s).outputCtxOpen = false := by
  cases h : s.isHandsFree <;>
    simp [stopSession, initLocalRecognition, h]

/-- C8 counterexample: a microphone-acquisition failure during
`startSession` leaves status at `ERROR` — the catch block performs no
teardown and no transition to `DISCONNECTED`, so `ERROR` is not transient
on this path. -/
theorem mic_failure_status_stays_error :
    (startSession false initialAppState).status = ConnectionStatus.ERROR ∧
    ¬(startSession false initialAppState).status = ConnectionStatus.DISCONNECTED := by
  decide

/-- C8 (amended): a remote channel error mid-session moves status to
`ERROR` and then, via the `stopSession` teardown, settles at
`DISCONNECTED` with face idle; but a microphone/permission failure during
`requestStart` only sets status `ERROR` and face idle and stays there —
`ERROR` is transient on the channel-error path only. -/
theorem connection_error_paths (s : AppState) :
    (onChannelErrorPre s).status = ConnectionStatus.ERROR ∧
    (onChannelError s).status = ConnectionStatus.DISCONNECTED ∧
    (onChannelError s).currentStatus = VisualStatus.idle ∧
    (s.status = ConnectionStatus.DISCONNECTED →
      (startSession false s).status = ConnectionStatus.ERROR ∧
      (startSession false s).currentStatus = VisualStatus.idle) := by
  refine ⟨rfl, ?_, ?_, ?_⟩
  · cases h : s.isHandsFree <;>
      simp [onChannelError, onChannelErrorPre, stopSession, initLocalRecognition, h]
  · cases h : s.isHandsFree <;>
      simp [onChannelError, onChannelErrorPre, stopSession, initLocalRecognition, h]
  · intro h
    simp [startSession, h]

/-- Witness for C8 (amended) at the initial state. -/
theorem connection_error_paths_witness :
    (onChannelErrorPre initialAppState).status = ConnectionStatus.ERROR ∧
    (onChannelError initialAppState).status = ConnectionStatus.DISCONNECTED ∧
    (onChannelError initialAppState).currentStatus = VisualStatus.idle ∧
    initialAppState.status = ConnectionStatus.DISCONNECTED ∧
    ((startSession false initialAppState).status = ConnectionStatus.ERROR ∧
      (startSession false initialAppState).currentStatus = VisualStatus.idle) :=
  ⟨(connection_error_paths initialAppState).1,
    (connection_error_paths initialAppState).2.1,
    (connection_error_paths initialAppState).2.2.1,
    by decide,
    (connection_error_paths initialAppState).2.2.2 (by decide)⟩

/-- A concrete stale-timer scenario: a connected session hears "goodbye"
(scheduling a delayed stop at 3000), the user stops the session, a new
session is started and connects within the 3-second window, and then the
still-pending timer fires. -/
def staleStopScenario : AppState :=
  onOpen (startSession true
    (stopSession (handleMessage ⟨0, 0, 0⟩ connectedState (inputMsg "goodbye"))))

/-- A concrete stale recognizer-restart scenario, stopped just before the
timer fires: with hands-free on and the wake recognizer running, the
recognizer errors (scheduling a restart at 1000), and then a session is
started and connects within the 1-second window — which stops the
recognizer, while the restart timer is still pending. -/
def staleRestartMid : AppState :=
  onOpen (startSession true (onRecognitionError ⟨0, 0, 0⟩ true
    { initialAppState with isHandsFree := true, recognitionRunning := true }))

/-- C9 counterexample: neither timer is canceled when superseded.  After
the original session is stopped and a new session connects within the
3-second window, the delayed stop is still pending and firing it tears
the new session down; and after a session connects (stopping the wake
recognizer) within the 1-second window, the recognizer restart is still
pending and firing it starts the recognizer while the session is
connected.  Both superseded timers act on the stale session's successors. -/
theorem stale_timers_act_after_supersede :
    staleStopScenario.status = ConnectionStatus.CONNECTED ∧
    staleStopScenario.sessionOpen = true ∧
    staleStopScenario.pendingStops = [3000] ∧
    (fireDelayedStop staleStopScenario).status = ConnectionStatus.DISCONNECTED ∧
    (fireDelayedStop staleStopScenario).sessionOpen = false ∧
    staleRestartMid.status = ConnectionStatus.CONNECTED ∧
    staleRestartMid.recognitionRunning = false ∧
    staleRestartMid.pendingRecRestarts = [1000] ∧
    (fireRecRestart staleRestartMid).recognitionRunning = true ∧
    (fireRecRestart staleRestartMid).status = ConnectionStatus.CONNECTED := by
  decide

/-- C9 (amended): neither timer is canceled when superseded by a new
state.  `stopSession`, `startSession` and channel-open leave both the
pending delayed stops and the pending recognizer restarts in place; a
pending delayed stop, when it fires, runs `stopSession` on whatever state
is then current — disconnecting and releasing even a session started after
the timer was scheduled — and a pending recognizer restart, when it fires,
starts the recognizer on whatever state is then current, with no check of
the session status. -/
theorem timers_not_cancelable (ok : Bool) (s : AppState) (t : ℤ) (rest : List ℤ)
    (h : s.pendingStops = t :: rest) :
    (stopSession s).pendingStops = s.pendingStops ∧
    (startSession ok s).pendingStops = s.pendingStops ∧
    (stopSession s).pendingRecRestarts = s.pendingRecRestarts ∧
    (startSession ok s).pendingRecRestarts = s.pendingRecRestarts ∧
    (onOpen s).pendingRecRestarts = s.pendingRecRestarts ∧
    fireDelayedStop s = stopSession { s with pendingStops := rest } ∧
    (fireDelayedStop s).status = ConnectionStatus.DISCONNECTED ∧
    (fireDelayedStop s).sessionOpen = false ∧
    ∀ u rest2, s.pendingRecRestarts = u :: rest2 →
      fireRecRestart s = { s with pendingRecRestarts := rest2, recognitionRunning := true } := by
  have hstop : ∀ s1 : AppState, (stopSession s1).pendingStops = s1.pendingStops ∧
      (stopSession s1).pendingRecRestarts = s1.pendingRecRestarts ∧
      (stopSession s1).status = ConnectionStatus.DISCONNECTED ∧
      (stopSession s1).sessionOpen = false := by
    intro s1
    cases h1 : s1.isHandsFree <;> simp [stopSession, initLocalRecognition, h1]
  have hstart : (startSession ok s).pendingStops = s.pendingStops ∧
      (startSession ok s).pendingRecRestarts = s.pendingRecRestarts := by
    by_cases hg : s.status = ConnectionStatus.CONNECTING ∨ s.status = ConnectionStatus.CONNECTED
    · simp [startSession, hg]
    · cases ok <;> simp [startSession, hg]
  refine ⟨(hstop s).1, hstart.1, (hstop s).2.1, hstart.2, rfl, ?_, ?_, ?_, ?_⟩
  · simp [fireDelayedStop, h]
  · simp [fireDelayedStop, h, (hstop _).2.2.1]
  · simp [fireDelayedStop, h, (hstop _).2.2.2]
  · intro u rest2 h2
    simp [fireRecRestart, h2]

/-- The state the C9 witness is evaluated at: the stale-stop scenario with
one recognizer restart also pending. -/
def staleTimersState : AppState :=
  onRecognitionError ⟨0, 0, 0⟩ true staleStopScenario

/-- Witness for C9 (amended) at a concrete state carrying one pending
delayed stop and one pending recognizer restart. -/
theorem timers_not_cancelable_witness :
    staleTimersState.pendingStops = 3000 :: [] ∧
    staleTimersState.pendingRecRestarts = 1000 :: [] ∧
    ((stopSession staleTimersState).pendingStops = staleTimersState.pendingStops ∧
      (startSession true staleTimersState).pendingStops = staleTimersState.pendingStops ∧
      (stopSession staleTimersState).pendingRecRestarts = staleTimersState.pendingRecRestarts ∧
      (startSession true staleTimersState).pendingRecRestarts = staleTimersState.pendingRecRestarts ∧
      (onOpen staleTimersState).pendingRecRestarts = staleTimersState.pendingRecRestarts ∧
      fireDelayedStop staleTimersState = stopSession { staleTimersState with pendingStops := [] } ∧
      (fireDelayedStop staleTimersState).status = ConnectionStatus.DISCONNECTED ∧
      (fireDelayedStop staleTimersState).sessionOpen = false) ∧
    fireRecRestart staleTimersState =
      { staleTimersState with pendingRecRestarts := [], recognitionRunning := true } := by
  have hthm := timers_not_cancelable true staleTimersState 3000 [] (by decide)
  obtain ⟨h1, h2, h3, h4, h5, h6, h7, h8, h9⟩ := hthm
  exact ⟨by decide, by decide, ⟨h1, h2, h3, h4, h5, h6, h7, h8⟩, h9 1000 [] (by decide)⟩

/-- C10: the `onended` bookkeeping sets the face to listening whenever the
source set becomes empty, with no check of status or of the current face;
in particular after `stopSession` has set the face to idle, the last
source's end event overrides it back to listening. -/
theorem drained_handler_unconditional (s : AppState) (id : Nat)
    (h : s.sources.erase id = []) :
    (onSourceEnded s id).currentStatus = VisualStatus.listening ∧
    (stopSession s).currentStatus = VisualStatus.idle ∧
    (onSourceEnded (stopSession s) id).currentStatus = VisualStatus.listening := by
  have hs : (stopSession s).sources = s.sources := by
    cases hh : s.isHandsFree <;> simp [stopSession, initLocalRecognition, hh]
  refine ⟨?_, ?_, ?_⟩
  · simp [onSourceEnded, h]
  · cases hh : s.isHandsFree <;> simp [stopSession, initLocalRecognition, hh]
  · simp [onSourceEnded, hs, h]

/-- Witness for C10: a connected state holding exactly one source. -/
theorem drained_handler_unconditional_witness :
    ((handleMessage ⟨0, 0, 0⟩ connectedState (audioMsg 2)).sources).erase 0 = [] ∧
    ((onSourceEnded (handleMessage ⟨0, 0, 0⟩ connectedState (audioMsg 2)) 0).currentStatus
        = VisualStatus.listening ∧
      (stopSession (handleMessage ⟨0, 0, 0⟩ connectedState (audioMsg 2))).currentStatus
        = VisualStatus.idle ∧
      (onSourceEnded (stopSession (handleMessage ⟨0, 0, 0⟩ connectedState (audioMsg 2))) 0).currentStatus
        = VisualStatus.listening) :=
  ⟨by decide,
    drained_handler_unconditional (handleMessage ⟨0, 0, 0⟩ connectedState (audioMsg 2)) 0
      (by decide)⟩

end VoiceAssistant
